import Mathlib

/-!
Shallow embedding of `packages/core/src/core/contentGenerator.ts`:
the credential resolver (`createContentGeneratorConfig`), the generator
factory (`createContentGenerator`) and the OpenAI chat-completion
translation adapter it builds inline.

JavaScript conventions used below:
an environment variable is an `Option String` (`none` = unset), and a
JS truthiness test on a string value is `truthy`: unset and the empty
string are falsy.  The `a || b` idiom on strings is `jsOrOpt` / `jsOrStr`.
The asynchronous functions of the source are pure here: the one external
call each of them makes (the model probe, resp. the chat-completion
backend) is passed in as a function argument.
-/

namespace ContentGen

/-- The `AuthType` enum of `contentGenerator.ts`. -/
inductive AuthType
  | LOGIN_WITH_GOOGLE
  | USE_GEMINI
  | USE_VERTEX_AI
  | USE_OPENAI
deriving DecidableEq, Repr

/-- JS truthiness of a `string | undefined` value: `undefined` and `""` are falsy. -/
def truthy : Option String → Bool
  | none => false
  | some s => s != ""

/-- The JS `a || b` fallback where `a` is a `string | undefined` value. -/
def jsOrOpt (a : Option String) (b : String) : String :=
  match a with
  | none => b
  | some s => if s = "" then b else s

/-- The JS `a || b` fallback where `a` is a plain string. -/
def jsOrStr (a b : String) : String :=
  if a = "" then b else a

/-- The five `process.env` credential inputs read by `createContentGeneratorConfig`. -/
structure Env where
  geminiApiKey : Option String
  googleApiKey : Option String
  googleCloudProject : Option String
  googleCloudLocation : Option String
  openaiApiKey : Option String
deriving DecidableEq, Repr

/-- The `ContentGeneratorConfig` record type of `contentGenerator.ts`.
Optional fields that the source leaves unset are `none`. -/
structure ContentGeneratorConfig where
  model : String
  apiKey : Option String := none
  vertexai : Option Bool := none
  authType : Option AuthType := none
deriving DecidableEq, Repr

/-- Line 64 of the source:
`config?.getModel?.() || model || DEFAULT_GEMINI_MODEL`.
`override` is the value `config?.getModel?.()` (`none` when no override
function was supplied), `model` the explicit argument. -/
def effectiveModel (override model : Option String) (dflt : String) : String :=
  jsOrOpt override (jsOrOpt model dflt)

/-- `createContentGeneratorConfig` from `contentGenerator.ts`.
`gem` is the external `getEffectiveModel` collaborator (from
`modelCheck.ts`), `dflt` the `DEFAULT_GEMINI_MODEL` constant (from
`config/models.ts`); both are imports of the repository that are not part
of this file, so they are passed as parameters. -/
def createContentGeneratorConfig (gem : String → String → String) (dflt : String)
    (env : Env) (model : Option String) (authType : Option AuthType)
    (override : Option String) : ContentGeneratorConfig :=
  let em := effectiveModel override model dflt
  let base : ContentGeneratorConfig := { model := em, authType := authType }
  if authType = some .LOGIN_WITH_GOOGLE then
    base
  else if authType = some .USE_GEMINI ∧ truthy env.geminiApiKey then
    let key := env.geminiApiKey.getD ""
    { base with apiKey := some key, model := gem key em }
  else if authType = some .USE_VERTEX_AI ∧ truthy env.googleApiKey ∧
      truthy env.googleCloudProject ∧ truthy env.googleCloudLocation then
    let key := env.googleApiKey.getD ""
    { base with apiKey := some key, vertexai := some true, model := gem key em }
  else if authType = some .USE_OPENAI ∧ truthy env.openaiApiKey then
    { base with apiKey := some (env.openaiApiKey.getD "") }
  else
    base

/-- A mode is key-based when it is any mode but the identity-login one. -/
def isKeyBased : AuthType → Bool
  | .LOGIN_WITH_GOOGLE => false
  | _ => true

/-- A sub-part of a content item, as inspected by the adapter:
`typeof p === "string" ? p : (p.text ?? "")`.  An object sub-part carries
the value of its `text` field (`none` when `text` is absent or nullish). -/
inductive PartVal
  | str (s : String)
  | obj (text : Option String)
deriving DecidableEq, Repr

/-- One element of an array-shaped `request.contents`, as inspected by the
adapter.  For an object, `text = some v` means the JS test `"text" in c`
succeeds and `c.text` is `v` (`some none` when `c.text` is nullish);
`parts = some ps` means `"parts" in c` succeeds with an array value `ps`
(a present non-array `parts`, which the source also maps to the empty
string, is folded into `none`). -/
inductive ContentItem
  | str (s : String)
  | obj (text : Option (Option String)) (parts : Option (List PartVal))
deriving DecidableEq, Repr

/-- The shapes of `request.contents` distinguished by the adapter:
a plain string, an array of items, a non-array object (only its `text`
field matters), or anything else (nullish values included). -/
inductive ContentsVal
  | str (s : String)
  | list (items : List ContentItem)
  | obj (text : Option (Option String))
  | other
deriving DecidableEq, Repr

/-- Sub-part extraction: `typeof p === "string" ? p : (p.text ?? "")`. -/
def partText : PartVal → String
  | .str s => s
  | .obj t => t.getD ""

/-- Per-item extraction inside `request.contents.map`:
string items pass through, `"text" in c` wins over `"parts" in c`,
a parts array is joined with newlines, anything else yields `""`. -/
def itemText : ContentItem → String
  | .str s => s
  | .obj (some t) _ => t.getD ""
  | .obj none (some ps) => String.intercalate "\n" (ps.map partText)
  | .obj none none => ""

/-- The prompt-flattening logic of the adapter `generateContent`
(lines 145-160 of the source). -/
def flattenContents : ContentsVal → String
  | .str s => s
  | .list items => String.intercalate "\n" (items.map itemText)
  | .obj (some t) => t.getD ""
  | .obj none => ""
  | .other => ""

/-- The request envelope: only `contents` is inspected by the adapter. -/
structure GenerateContentParameters where
  contents : ContentsVal
deriving DecidableEq, Repr

/-- The single chat-completion call the adapter issues:
`openai.chat.completions.create` with the given model and one user
message holding the flattened prompt. -/
structure ChatCompletionCall where
  model : String
  prompt : String
deriving DecidableEq, Repr

/-- One text part of the normalized response; the source stores
`completion.choices[0].message.content` (a `string | null`) unwrapped. -/
structure TextPart where
  text : Option String
deriving DecidableEq, Repr

/-- The content block of a response candidate. -/
structure CandidateContent where
  parts : List TextPart
deriving DecidableEq, Repr

/-- One candidate of the normalized response envelope. -/
structure Candidate where
  content : CandidateContent
deriving DecidableEq, Repr

/-- The normalized `GenerateContentResponse` envelope. -/
structure GenerateContentResponse where
  candidates : List Candidate
deriving DecidableEq, Repr

/-- The model string sent to the backend: `config.model || "o4-mini"`. -/
def openaiChatCall (configModel : String) (request : GenerateContentParameters) :
    ChatCompletionCall :=
  { model := jsOrStr configModel "o4-mini", prompt := flattenContents request.contents }

/-- Re-wrapping of the raw completion into the normalized envelope
(lines 166-175 of the source): one candidate, one text part holding the
message content of the first choice. -/
def openaiWrapCompletion (messageContent : Option String) : GenerateContentResponse :=
  { candidates := [{ content := { parts := [{ text := messageContent }] } }] }

/-- The adapter `generateContent`: flatten the request into a prompt,
call the backend once, re-wrap its message content.  `backend` stands for
the awaited `openai.chat.completions.create` call and returns the message
content of the first choice; the call actually issued is returned
alongside the response so that theorems can speak about it. -/
def openaiGenerateContent (configModel : String) (request : GenerateContentParameters)
    (backend : ChatCompletionCall → Option String) :
    ChatCompletionCall × GenerateContentResponse :=
  let call := openaiChatCall configModel request
  (call, openaiWrapCompletion (backend call))

/-- The failure kinds of the adapter operations: a thrown `Error` with the
given message. -/
inductive AdapterError
  | notImplemented (message : String)
deriving DecidableEq, Repr

/-- The request envelope of `countTokens` (opaque to the adapter). -/
structure CountTokensParameters where
  contents : ContentsVal
deriving DecidableEq, Repr

/-- The request envelope of `embedContent` (opaque to the adapter). -/
structure EmbedContentParameters where
  contents : ContentsVal
deriving DecidableEq, Repr

/-- The adapter `generateContentStream`: always throws. -/
def openaiGenerateContentStream (_request : GenerateContentParameters) :
    Except AdapterError (List GenerateContentResponse) :=
  .error (.notImplemented "OpenAI streaming not implemented")

/-- The adapter `countTokens`: always throws. -/
def openaiCountTokens (_request : CountTokensParameters) :
    Except AdapterError Nat :=
  .error (.notImplemented "OpenAI token counting not implemented")

/-- The adapter `embedContent`: always throws. -/
def openaiEmbedContent (_request : EmbedContentParameters) :
    Except AdapterError (List Int) :=
  .error (.notImplemented "OpenAI embedding not implemented")

/-- The concrete generator the factory returns, by adapter family.
`codeAssist` stands for the external `createCodeAssistContentGenerator`
instance, `googleGenAI` for `googleGenAI.models` of the vendor SDK client
(recording the constructor arguments that matter), `openaiAdapter` for
the inline chat-completion translation adapter. -/
inductive ContentGeneratorImpl
  | codeAssist (authType : AuthType) (sessionId : Option String)
  | googleGenAI (apiKey : Option String) (vertexai : Option Bool)
  | openaiAdapter (apiKey : String) (model : String)
deriving DecidableEq, Repr

/-- The error thrown at the end of `createContentGenerator`:
`Unsupported authType` carrying the offending mode. -/
inductive FactoryError
  | unsupportedAuthType (authType : Option AuthType)
deriving DecidableEq, Repr

/-- `createContentGenerator` from `contentGenerator.ts`: the dispatch on
`config.authType`, first match wins.  The `GoogleGenAI` constructor is
called with `apiKey === "" ? undefined : apiKey`. -/
def createContentGenerator (config : ContentGeneratorConfig)
    (sessionId : Option String) : Except FactoryError ContentGeneratorImpl :=
  if config.authType = some .LOGIN_WITH_GOOGLE then
    .ok (.codeAssist .LOGIN_WITH_GOOGLE sessionId)
  else if config.authType = some .USE_GEMINI ∨ config.authType = some .USE_VERTEX_AI then
    .ok (.googleGenAI (if config.apiKey = some "" then none else config.apiKey)
      config.vertexai)
  else if config.authType = some .USE_OPENAI ∧ truthy config.apiKey then
    .ok (.openaiAdapter (config.apiKey.getD "") config.model)
  else
    .error (.unsupportedAuthType config.authType)

/-- Written from the words of the spec (refinement target for the
precedence of the effective model): the override function result first,
then the explicit requested model, then the default constant, each lower
source used exactly when every higher one is absent. -/
def specEffectiveModel (override model : Option String) (dflt : String) : String :=
  match override with
  | some s => s
  | none =>
    match model with
    | some m => m
    | none => dflt

/-- Written from the words of the spec (refinement target for the
per-item flattening precedence): a plain string is used as-is; an object
exposing a direct text field uses that field, empty string when its value
is absent; an object exposing an ordered list of sub-parts joins each
sub-part, string-or-text-field, with newlines; any other shape
contributes an empty string. -/
def specItemText : ContentItem → String
  | .str s => s
  | .obj (some t) _ => t.getD ""
  | .obj none (some ps) =>
      String.intercalate "\n" (ps.map fun p =>
        match p with
        | .str s => s
        | .obj t => t.getD "")
  | .obj none none => ""

/-- Modelled from the spec: the Effective Model Resolver
(`getEffectiveModel` of `modelCheck.ts`, a file of this repository that
is not under `src/`) maps an API key and a requested model to the model
string actually usable, possibly substituting another usable model.
Only its interface matters here: a usable model identifier is a
non-empty string. -/
def IsModelResolver (gem : String → String → String) : Prop :=
  ∀ apiKey model, gem apiKey model ≠ ""

/-- An environment with no credential set. -/
def envEmpty : Env := ⟨none, none, none, none, none⟩

/-- An environment with all three cloud credentials set. -/
def envCloud : Env := ⟨none, some "cloud-key", some "proj", some "loc", none⟩

/-- An environment with only the Gemini key set. -/
def envGemini : Env := ⟨some "gemini-key", none, none, none, none⟩

/-- An environment with only the OpenAI key set. -/
def envOpenAI : Env := ⟨none, none, none, none, some "openai-key"⟩

section BranchLemmas

variable (gem : String → String → String) (dflt : String) (env : Env)
variable (model override : Option String)

lemma ccg_login_eq :
    createContentGeneratorConfig gem dflt env model (some .LOGIN_WITH_GOOGLE) override =
      { model := effectiveModel override model dflt,
        authType := some .LOGIN_WITH_GOOGLE } := by
  simp [createContentGeneratorConfig]

lemma ccg_none_eq :
    createContentGeneratorConfig gem dflt env model none override =
      { model := effectiveModel override model dflt, authType := none } := by
  simp [createContentGeneratorConfig]

lemma ccg_gemini_pos (h : truthy env.geminiApiKey) :
    createContentGeneratorConfig gem dflt env model (some .USE_GEMINI) override =
      { model := gem (env.geminiApiKey.getD "") (effectiveModel override model dflt),
        apiKey := some (env.geminiApiKey.getD ""),
        authType := some .USE_GEMINI } := by
  simp [createContentGeneratorConfig, h]

lemma ccg_gemini_neg (h : ¬ truthy env.geminiApiKey) :
    createContentGeneratorConfig gem dflt env model (some .USE_GEMINI) override =
      { model := effectiveModel override model dflt,
        authType := some .USE_GEMINI } := by
  simp [createContentGeneratorConfig, h]

lemma ccg_vertex_pos (hk : truthy env.googleApiKey) (hp : truthy env.googleCloudProject)
    (hl : truthy env.googleCloudLocation) :
    createContentGeneratorConfig gem dflt env model (some .USE_VERTEX_AI) override =
      { model := gem (env.googleApiKey.getD "") (effectiveModel override model dflt),
        apiKey := some (env.googleApiKey.getD ""),
        vertexai := some true,
        authType := some .USE_VERTEX_AI } := by
  simp [createContentGeneratorConfig, hk, hp, hl]

lemma ccg_vertex_neg
    (h : ¬ (truthy env.googleApiKey ∧ truthy env.googleCloudProject ∧
      truthy env.googleCloudLocation)) :
    createContentGeneratorConfig gem dflt env model (some .USE_VERTEX_AI) override =
      { model := effectiveModel override model dflt,
        authType := some .USE_VERTEX_AI } := by
  simp only [createContentGeneratorConfig]
  rw [if_neg (by simp), if_neg (by simp), if_neg (by simpa using h), if_neg (by simp)]

lemma ccg_openai_pos (h : truthy env.openaiApiKey) :
    createContentGeneratorConfig gem dflt env model (some .USE_OPENAI) override =
      { model := effectiveModel override model dflt,
        apiKey := some (env.openaiApiKey.getD ""),
        authType := some .USE_OPENAI } := by
  simp [createContentGeneratorConfig, h]

lemma ccg_openai_neg (h : ¬ truthy env.openaiApiKey) :
    createContentGeneratorConfig gem dflt env model (some .USE_OPENAI) override =
      { model := effectiveModel override model dflt,
        authType := some .USE_OPENAI } := by
  simp [createContentGeneratorConfig, h]

end BranchLemmas

lemma truthy_getD_ne {o : Option String} (h : truthy o) : o.getD "" ≠ "" := by
  cases o with
  | none => simp [truthy] at h
  | some s => simpa [truthy] using h

lemma truthy_some_getD {o : Option String} (h : truthy o) : some (o.getD "") = o := by
  cases o with
  | none => simp [truthy] at h
  | some s => rfl

lemma effectiveModel_ne_empty {dflt : String} (h : dflt ≠ "") (override model : Option String) :
    effectiveModel override model dflt ≠ "" := by
  cases override with
  | none =>
    cases model with
    | none => simpa [effectiveModel, jsOrOpt] using h
    | some m =>
      by_cases hm : m = "" <;> simp [effectiveModel, jsOrOpt, hm, h]
  | some s =>
    by_cases hs : s = ""
    · cases model with
      | none => simpa [effectiveModel, jsOrOpt, hs] using h
      | some m =>
        by_cases hm : m = "" <;> simp [effectiveModel, jsOrOpt, hs, hm, h]
    · simp [effectiveModel, jsOrOpt, hs]

lemma truthy_eq_some {o : Option String} {k : String} (h : truthy o) (he : o = some k) :
    k ≠ "" := by
  subst he
  simpa [truthy] using h

/-- Claim C1, counterexample: with no credential in the environment and the
direct-key mode selected, the resolver returns a config whose authMode is
key-based while apiKey is absent, so the claimed invariant fails as stated. -/
theorem c1_counterexample :
    (createContentGeneratorConfig (fun _ m => m) "gemini-2.5-pro" envEmpty none
      (some .USE_GEMINI) none).authType.map isKeyBased = some true ∧
    (createContentGeneratorConfig (fun _ m => m) "gemini-2.5-pro" envEmpty none
      (some .USE_GEMINI) none).apiKey = none := by
  exact ⟨rfl, rfl⟩

/-- Claim C1 (amended): every apiKey the resolver ever sets is non-empty, and
for each key-based mode the apiKey is set (to the matching environment key)
whenever the credentials that mode requires are present and non-empty; when
they are not, the permissive fallback carries no key at all. -/
theorem c1_invariant (gem : String → String → String) (dflt : String) (env : Env)
    (model override : Option String) (authType : Option AuthType) :
    (∀ k, (createContentGeneratorConfig gem dflt env model authType override).apiKey = some k →
      k ≠ "") ∧
    (authType = some .USE_GEMINI → truthy env.geminiApiKey →
      (createContentGeneratorConfig gem dflt env model authType override).apiKey =
        env.geminiApiKey) ∧
    (authType = some .USE_VERTEX_AI → truthy env.googleApiKey →
      truthy env.googleCloudProject → truthy env.googleCloudLocation →
      (createContentGeneratorConfig gem dflt env model authType override).apiKey =
        env.googleApiKey) ∧
    (authType = some .USE_OPENAI → truthy env.openaiApiKey →
      (createContentGeneratorConfig gem dflt env model authType override).apiKey =
        env.openaiApiKey) := by
  refine ⟨?_, ?_, ?_, ?_⟩
  · intro k hk
    rcases authType with _ | a
    · rw [ccg_none_eq] at hk
      exact absurd hk (by simp)
    · cases a with
      | LOGIN_WITH_GOOGLE =>
        rw [ccg_login_eq] at hk
        exact absurd hk (by simp)
      | USE_GEMINI =>
        by_cases h : truthy env.geminiApiKey
        · rw [ccg_gemini_pos gem dflt env model override h] at hk
          exact truthy_eq_some h ((truthy_some_getD h).symm.trans hk)
        · rw [ccg_gemini_neg gem dflt env model override h] at hk
          exact absurd hk (by simp)
      | USE_VERTEX_AI =>
        by_cases h : truthy env.googleApiKey ∧ truthy env.googleCloudProject ∧
            truthy env.googleCloudLocation
        · rw [ccg_vertex_pos gem dflt env model override h.1 h.2.1 h.2.2] at hk
          exact truthy_eq_some h.1 ((truthy_some_getD h.1).symm.trans hk)
        · rw [ccg_vertex_neg gem dflt env model override h] at hk
          exact absurd hk (by simp)
      | USE_OPENAI =>
        by_cases h : truthy env.openaiApiKey
        · rw [ccg_openai_pos gem dflt env model override h] at hk
          exact truthy_eq_some h ((truthy_some_getD h).symm.trans hk)
        · rw [ccg_openai_neg gem dflt env model override h] at hk
          exact absurd hk (by simp)
  · rintro rfl h
    rw [ccg_gemini_pos gem dflt env model override h]
    exact truthy_some_getD h
  · rintro rfl hk hp hl
    rw [ccg_vertex_pos gem dflt env model override hk hp hl]
    exact truthy_some_getD hk
  · rintro rfl h
    rw [ccg_openai_pos gem dflt env model override h]
    exact truthy_some_getD h

/-- Witness for the amended claim C1 at a concrete environment. -/
theorem c1_invariant_witness :
    (createContentGeneratorConfig (fun _ m => m) "gemini-2.5-pro" envGemini none
      (some .USE_GEMINI) none).apiKey = envGemini.geminiApiKey :=
  (c1_invariant (fun _ m => m) "gemini-2.5-pro" envGemini none none
    (some .USE_GEMINI)).2.1 rfl (by decide)

/-- Claim C2, counterexample: a config in chat-completion mode whose apiKey is
present but empty makes the factory throw the unsupported-authType error,
although the claim says the error occurs only when apiKey is absent. -/
theorem c2_counterexample :
    createContentGenerator
      { model := "gpt-4", apiKey := some "", authType := some AuthType.USE_OPENAI } none =
      .error (.unsupportedAuthType (some AuthType.USE_OPENAI)) ∧
    ({ model := "gpt-4", apiKey := some "", authType := some AuthType.USE_OPENAI :
        ContentGeneratorConfig }).apiKey ≠ none := by
  exact ⟨rfl, by simp⟩

/-- Claim C2 (amended): the factory fails, and then with the
unsupported-authType error, exactly when the authMode matches none of the four
known modes (it is absent) or when the chat-completion mode is selected and the
apiKey is absent or empty; in every other case it returns a generator. -/
theorem c2_create_errors_iff (config : ContentGeneratorConfig) (sessionId : Option String) :
    (∃ e, createContentGenerator config sessionId = Except.error e) ↔
      (config.authType = none ∨
        (config.authType = some AuthType.USE_OPENAI ∧ ¬ truthy config.apiKey)) := by
  obtain ⟨m, k, v, a⟩ := config
  rcases a with _ | a
  · simp [createContentGenerator]
  · cases a with
    | LOGIN_WITH_GOOGLE => simp [createContentGenerator]
    | USE_GEMINI => simp [createContentGenerator]
    | USE_VERTEX_AI => simp [createContentGenerator]
    | USE_OPENAI =>
      by_cases h : truthy k
      · simp [createContentGenerator, h]
      · simp [createContentGenerator, h]

/-- The concrete request contents of the flattening property:
the JS value [ \x7btext: "a"\x7d, \x7bparts: [\x7btext: "b"\x7d, "c"]\x7d ]. -/
def exampleContents : ContentsVal :=
  .list [ .obj (some (some "a")) none,
          .obj none (some [ .obj (some "b"), .str "c" ]) ]

/-- Claim C3: the adapter flattening agrees item by item with the precedence
stated by the spec, an array of items is joined with newlines, and on the
spec example the prompt sent to the backend is exactly "a\nb\nc". -/
theorem c3_flattening :
    (∀ c, itemText c = specItemText c) ∧
    (∀ items, flattenContents (.list items) =
      String.intercalate "\n" (items.map specItemText)) ∧
    (∀ configModel backend,
      (openaiGenerateContent configModel ⟨exampleContents⟩ backend).1.prompt = "a\nb\nc") := by
  have hitem : ∀ c, itemText c = specItemText c := by
    intro c
    match c with
    | .str s => rfl
    | .obj (some t) p => rfl
    | .obj none (some ps) => rfl
    | .obj none none => rfl
  refine ⟨hitem, ?_, ?_⟩
  · intro items
    show String.intercalate "\n" (items.map itemText) = _
    rw [funext hitem]
  · intro configModel backend
    rfl

/-- Claim C4: the adapter re-wraps every backend result as one candidate
holding a single text part equal to the message content of the completion;
at message text "hello" the first candidate's first part is exactly "hello". -/
theorem c4_rewrap :
    (∀ configModel request backend,
      ((openaiGenerateContent configModel request backend).2.candidates.map
        (fun c => c.content.parts.map TextPart.text)) =
        [[backend (openaiChatCall configModel request)]]) ∧
    ((openaiGenerateContent "gpt-4" ⟨.str "hi"⟩ (fun _ => some "hello")).2.candidates.map
        (fun c => c.content.parts.map TextPart.text)) = [[some "hello"]] := by
  exact ⟨fun _ _ _ => rfl, rfl⟩

/-- Claim C5: the three unsupported adapter operations fail with their
not-implemented error on every request, independent of the content. -/
theorem c5_not_implemented (r1 : GenerateContentParameters)
    (r2 : CountTokensParameters) (r3 : EmbedContentParameters) :
    openaiGenerateContentStream r1 =
      .error (.notImplemented "OpenAI streaming not implemented") ∧
    openaiCountTokens r2 =
      .error (.notImplemented "OpenAI token counting not implemented") ∧
    openaiEmbedContent r3 =
      .error (.notImplemented "OpenAI embedding not implemented") :=
  ⟨rfl, rfl, rfl⟩

/-- Claim C6: in identity-login mode the resolver returns exactly the model
and the authMode, with no apiKey and no cloud flag; the right-hand side does
not mention the Effective Model Resolver `gem`, so that collaborator is never
invoked on this path. -/
theorem c6_identity_login (gem : String → String → String) (dflt : String) (env : Env)
    (model override : Option String) :
    createContentGeneratorConfig gem dflt env model (some .LOGIN_WITH_GOOGLE) override =
      { model := effectiveModel override model dflt, apiKey := none, vertexai := none,
        authType := some .LOGIN_WITH_GOOGLE } :=
  ccg_login_eq gem dflt env model override

/-- Claim C7: in cloud-hosted mode the resolver applies the cloud settings
(key, cloud flag, re-resolved model) exactly when key, project and location
are all present and non-empty; when any of the three is missing the permissive
fallback is returned with none of the cloud settings partially applied. -/
theorem c7_vertex (gem : String → String → String) (dflt : String) (env : Env)
    (model override : Option String) :
    (truthy env.googleApiKey ∧ truthy env.googleCloudProject ∧
        truthy env.googleCloudLocation →
      createContentGeneratorConfig gem dflt env model (some .USE_VERTEX_AI) override =
        { model := gem (env.googleApiKey.getD "") (effectiveModel override model dflt),
          apiKey := env.googleApiKey, vertexai := some true,
          authType := some .USE_VERTEX_AI }) ∧
    (¬ (truthy env.googleApiKey ∧ truthy env.googleCloudProject ∧
        truthy env.googleCloudLocation) →
      createContentGeneratorConfig gem dflt env model (some .USE_VERTEX_AI) override =
        { model := effectiveModel override model dflt, apiKey := none, vertexai := none,
          authType := some .USE_VERTEX_AI }) := by
  constructor
  · rintro ⟨hk, hp, hl⟩
    rw [ccg_vertex_pos gem dflt env model override hk hp hl, truthy_some_getD hk]
  · intro h
    exact ccg_vertex_neg gem dflt env model override h

/-- Witness for claim C7: both branches at concrete environments. -/
theorem c7_vertex_witness :
    createContentGeneratorConfig (fun _ m => m) "gemini-2.5-pro" envCloud none
      (some .USE_VERTEX_AI) none =
      { model := "gemini-2.5-pro", apiKey := some "cloud-key", vertexai := some true,
        authType := some .USE_VERTEX_AI } ∧
    createContentGeneratorConfig (fun _ m => m) "gemini-2.5-pro" envEmpty none
      (some .USE_VERTEX_AI) none =
      { model := "gemini-2.5-pro", apiKey := none, vertexai := none,
        authType := some .USE_VERTEX_AI } := by
  constructor
  · exact (c7_vertex (fun _ m => m) "gemini-2.5-pro" envCloud none none).1 (by decide)
  · exact (c7_vertex (fun _ m => m) "gemini-2.5-pro" envEmpty none none).2 (by decide)

/-- Claim C8: in chat-completion mode with the key present, the resolver sets
the apiKey to that key and leaves the model exactly the initially computed
effective model; the right-hand side does not mention the Effective Model
Resolver `gem`, so that collaborator is never invoked in this mode. -/
theorem c8_openai_frame (gem : String → String → String) (dflt : String) (env : Env)
    (model override : Option String) (h : truthy env.openaiApiKey) :
    createContentGeneratorConfig gem dflt env model (some .USE_OPENAI) override =
      { model := effectiveModel override model dflt, apiKey := env.openaiApiKey,
        vertexai := none, authType := some .USE_OPENAI } := by
  rw [ccg_openai_pos gem dflt env model override h, truthy_some_getD h]

/-- Witness for claim C8 at a concrete environment. -/
theorem c8_openai_frame_witness :
    createContentGeneratorConfig (fun _ m => m) "gemini-2.5-pro" envOpenAI (some "gpt-4o")
      (some .USE_OPENAI) none =
      { model := "gpt-4o", apiKey := some "openai-key", vertexai := none,
        authType := some .USE_OPENAI } :=
  c8_openai_frame (fun _ m => m) "gemini-2.5-pro" envOpenAI (some "gpt-4o") none (by decide)

/-- Claim C9, counterexample: an override function returning the empty string
makes the code fall through to the requested model, while the spec precedence
(lower source used exactly when every higher one is absent) would return the
empty override result; the two disagree at this input. -/
theorem c9_counterexample :
    (createContentGeneratorConfig (fun _ m => m) "gemini-2.5-pro" envEmpty
      (some "gemini-1.5-flash") (some .LOGIN_WITH_GOOGLE) (some "")).model =
      "gemini-1.5-flash" ∧
    specEffectiveModel (some "") (some "gemini-1.5-flash") "gemini-2.5-pro" = "" ∧
    (createContentGeneratorConfig (fun _ m => m) "gemini-2.5-pro" envEmpty
      (some "gemini-1.5-flash") (some .LOGIN_WITH_GOOGLE) (some "")).model ≠
      specEffectiveModel (some "") (some "gemini-1.5-flash") "gemini-2.5-pro" := by
  refine ⟨rfl, rfl, ?_⟩
  decide

/-- Claim C9 (amended): the resolver computes the effective model with the
precedence override result, then requested model, then default constant, each
lower source used exactly when every higher one is absent or empty; the
resolver adopts this value as the initial model of the config. -/
theorem c9_precedence (override model : Option String) (dflt : String) :
    (truthy override → effectiveModel override model dflt = override.getD "") ∧
    (¬ truthy override → truthy model →
      effectiveModel override model dflt = model.getD "") ∧
    (¬ truthy override → ¬ truthy model →
      effectiveModel override model dflt = dflt) ∧
    (∀ gem env, (createContentGeneratorConfig gem dflt env model none override).model =
      effectiveModel override model dflt) := by
  refine ⟨?_, ?_, ?_, ?_⟩
  · intro h
    cases override with
    | none => simp [truthy] at h
    | some s =>
      have hs : s ≠ "" := by simpa [truthy] using h
      simp [effectiveModel, jsOrOpt, hs]
  · intro ho hm
    cases model with
    | none => simp [truthy] at hm
    | some m =>
      have hm' : m ≠ "" := by simpa [truthy] using hm
      cases override with
      | none => simp [effectiveModel, jsOrOpt, hm']
      | some s =>
        have hs : s = "" := by
          by_contra hs
          exact ho (by simp [truthy, hs])
        simp [effectiveModel, jsOrOpt, hs, hm']
  · intro ho hm
    cases override with
    | none =>
      cases model with
      | none => rfl
      | some m =>
        have hm' : m = "" := by
          by_contra h
          exact hm (by simp [truthy, h])
        simp [effectiveModel, jsOrOpt, hm']
    | some s =>
      have hs : s = "" := by
        by_contra h
        exact ho (by simp [truthy, h])
      cases model with
      | none => simp [effectiveModel, jsOrOpt, hs]
      | some m =>
        have hm' : m = "" := by
          by_contra h
          exact hm (by simp [truthy, h])
        simp [effectiveModel, jsOrOpt, hs, hm']
  · intro gem env
    rw [ccg_none_eq]

/-- Witness for the amended claim C9: the three precedence levels at concrete
inputs. -/
theorem c9_precedence_witness :
    effectiveModel (some "override-model") (some "arg-model") "gemini-2.5-pro" =
      "override-model" ∧
    effectiveModel none (some "arg-model") "gemini-2.5-pro" = "arg-model" ∧
    effectiveModel none none "gemini-2.5-pro" = "gemini-2.5-pro" := by
  refine ⟨?_, ?_, ?_⟩
  · exact (c9_precedence (some "override-model") (some "arg-model") "gemini-2.5-pro").1
      (by decide)
  · exact (c9_precedence none (some "arg-model") "gemini-2.5-pro").2.1
      (by decide) (by decide)
  · exact (c9_precedence none none "gemini-2.5-pro").2.2.1
      (by decide) (by decide)

/-- Claim C10: when the default model constant is non-empty and the Effective
Model Resolver yields usable (non-empty) model strings, every config the
resolver produces has a non-empty model, and consequently the fixed fallback
model of the chat-completion adapter is never selected for such a config. -/
theorem c10_model_nonempty (gem : String → String → String) (dflt : String) (env : Env)
    (model override : Option String) (authType : Option AuthType)
    (hgem : IsModelResolver gem) (hd : dflt ≠ "") :
    (createContentGeneratorConfig gem dflt env model authType override).model ≠ "" ∧
    (∀ request : GenerateContentParameters,
      (openaiChatCall
        (createContentGeneratorConfig gem dflt env model authType override).model
        request).model =
      (createContentGeneratorConfig gem dflt env model authType override).model) := by
  have hm : (createContentGeneratorConfig gem dflt env model authType override).model ≠ "" := by
    have hem := effectiveModel_ne_empty hd override model
    rcases authType with _ | a
    · rw [ccg_none_eq]
      exact hem
    · cases a with
      | LOGIN_WITH_GOOGLE =>
        rw [ccg_login_eq]
        exact hem
      | USE_GEMINI =>
        by_cases h : truthy env.geminiApiKey
        · rw [ccg_gemini_pos gem dflt env model override h]
          exact hgem _ _
        · rw [ccg_gemini_neg gem dflt env model override h]
          exact hem
      | USE_VERTEX_AI =>
        by_cases h : truthy env.googleApiKey ∧ truthy env.googleCloudProject ∧
            truthy env.googleCloudLocation
        · rw [ccg_vertex_pos gem dflt env model override h.1 h.2.1 h.2.2]
          exact hgem _ _
        · rw [ccg_vertex_neg gem dflt env model override h]
          exact hem
      | USE_OPENAI =>
        by_cases h : truthy env.openaiApiKey
        · rw [ccg_openai_pos gem dflt env model override h]
          exact hem
        · rw [ccg_openai_neg gem dflt env model override h]
          exact hem
  refine ⟨hm, fun request => ?_⟩
  simp [openaiChatCall, jsOrStr, hm]

/-- Witness for claim C10 at a concrete resolver and environment. -/
theorem c10_model_nonempty_witness :
    (createContentGeneratorConfig (fun _ _ => "gemini-2.5-flash") "gemini-2.5-pro" envGemini
      none (some .USE_GEMINI) none).model ≠ "" :=
  (c10_model_nonempty (fun _ _ => "gemini-2.5-flash") "gemini-2.5-pro" envGemini none none
    (some .USE_GEMINI)
    (by intro k m; show ("gemini-2.5-flash" : String) ≠ ""; decide) (by decide)).1

end ContentGen
